import Mathlib

/-!
Verification of the lifecycle orchestration core of pinebit/smart-contract-monitor.

The orchestration code lives in src/app/app.go: NewApp (logger, config and
contract loading), the AppContext accessors, and (a *app).Run, which arms the
shutdown handler, builds the output destination list, optionally connects and
migrates the Postgres durable store, starts one goroutine per chain plus the
server goroutine under an errgroup, and waits.

The embedding below translates Run into a pure function from a configuration
and a record of external behaviours (connect result, migrate result, chain
loop outcomes, server result, shutdown signal) to a RunResult: an ordered
trace of the observable steps Run performs, the finalized output destination
list, and the process outcome.  Zap Fatal-level logging calls os.Exit, which
terminates the process without running deferred functions; the embedding
models every logger.Fatal call as an immediate exit that skips the pending
defer.
-/

namespace SCMonitor

/-- A Go error value (non-nil error). Go nil error is modelled as none. -/
structure Err where
  msg : String
deriving DecidableEq

/-- Config.Outputs.Console section (src/app/config.go is absent from src;
the fields used by Run are the section pointer and its Disabled flag). -/
structure ConsoleConfig where
  disabled : Bool
deriving DecidableEq

/-- Config.Outputs.Postgres section: present iff the connection URL was supplied. -/
structure PostgresConfig where
  url : String
deriving DecidableEq

/-- Config.Outputs: the two optional destination sections. A Go nil pointer is none. -/
structure OutputsConfig where
  console : Option ConsoleConfig
  postgres : Option PostgresConfig
deriving DecidableEq

/-- The part of Config that Run reads. Modelled from the spec: one chain task
per configured chain, so the chain set is kept as a list of chain names. -/
structure Config where
  outputs : OutputsConfig
  chains : List String
deriving DecidableEq

/-- External behaviours observed during one execution of Run. -/
structure RunExt where
  /-- Result of db.Connect(ctx, url): none is a nil error (success). -/
  connectResult : Option Err
  /-- Result of db.MigrateSchema(ctx, chains). -/
  migrateResult : Option Err
  /-- Modelled from the spec: the internal outcome of chain.RunLoop(gctx) for
  chain index i (clean exit or internal error). Run discards this value. -/
  chainRunLoopOutcome : Nat → Option Err
  /-- Return value of s.Run, the server goroutine passed to g.Go. -/
  serviceResult : Option Err
  /-- Whether the external termination signal was delivered to ShutdownHandler. -/
  shutdownSignal : Bool

/-- Fatal exit reasons: the three logger.Fatal call sites reachable from Run. -/
inductive FatalKind
  | connectFailed
  | migrateFailed
  | appError (e : Err)
deriving DecidableEq

/-- Observable steps of Run, in execution order. -/
inductive Event
  | registerConsole
  | constructHandler
  | constructChains
  | constructDatabase
  | connectAttempt (url : String)
  | connectOk
  | migrateOk
  | registerDb
  | chainTaskStarted (i : Nat)
  | serviceTaskStarted
  | chainTaskReturned (i : Nat)
  | serviceTaskReturned
  | waitReturned (r : Option Err)
  | closeDb
  | fatalExit (k : FatalKind)
  | runReturned
deriving DecidableEq

/-- Output destinations that Run can register into the Outputs collection. -/
inductive Dest
  | console
  | db
deriving DecidableEq

/-- The shared group context created by errgroup.WithContext in Run. -/
inductive Ctx
  | group
deriving DecidableEq

/-- Process outcome of one execution of Run. -/
inductive Outcome
  | returned
  | exited (k : FatalKind)
deriving DecidableEq

/-- Result of the embedded Run: the ordered step trace, the finalized output
destination list, the context assigned to a.ctx, and the process outcome. -/
structure RunResult where
  trace : List Event
  outputs : List Dest
  ctx : Option Ctx
  outcome : Outcome
deriving DecidableEq

/-- The console-enabled test on line 83 of app.go:
Console == nil or not Console.Disabled. -/
def consoleEnabled (cfg : Config) : Bool :=
  match cfg.outputs.console with
  | none => true
  | some c => !c.disabled

/-- The function Run passes to g.Go for one chain (lines 107-110): it calls
chain.RunLoop(gctx), discards whatever happened inside, and returns nil. -/
def chainGoFn (ext : RunExt) (i : Nat) : Option Err :=
  match ext.chainRunLoopOutcome i with
  | _ => none

/-- The return values of all goroutines started by Run, in start order:
one per chain, then the server goroutine s.Run. -/
def taskResults (cfg : Config) (ext : RunExt) : List (Option Err) :=
  (List.range cfg.chains.length).map (chainGoFn ext) ++ [ext.serviceResult]

/-- errgroup.Wait: blocks until all goroutines return, then returns the first
non-nil error among them, if any.  The chronological order of returns is
abstracted as list order; every result but the last is nil here, so the
choice of order cannot change the value. -/
def groupWait (rs : List (Option Err)) : Option Err :=
  rs.findSome? id

/-- Whether the shared scope (gctx) is cancelled while tasks run: the
ShutdownHandler cancels the parent on the external signal, and errgroup
cancels gctx as soon as any goroutine returns a non-nil error. -/
def scopeCancelled (cfg : Config) (ext : RunExt) : Bool :=
  ext.shutdownSignal || (groupWait (taskResults cfg ext)).isSome

/-- The tail of Run from line 104 on: start the chain goroutines and the
server goroutine, wait, and either log fatally (skipping the pending defer)
or let the defer run and return.  pre is the trace accumulated so far, outs
the destination list, hasDefer whether defer db.Close is pending. -/
def startAndWait (cfg : Config) (ext : RunExt) (outs : List Dest)
    (pre : List Event) (hasDefer : Bool) : RunResult :=
  let n := cfg.chains.length
  let startEvts := (List.range n).map Event.chainTaskStarted ++ [Event.serviceTaskStarted]
  let retEvts := (List.range n).map Event.chainTaskReturned ++ [Event.serviceTaskReturned]
  match groupWait (taskResults cfg ext) with
  | some e =>
      { trace := pre ++ startEvts ++ retEvts ++
          [Event.waitReturned (some e), Event.fatalExit (FatalKind.appError e)]
        outputs := outs
        ctx := some Ctx.group
        outcome := Outcome.exited (FatalKind.appError e) }
  | none =>
      let closeEvts := if hasDefer then [Event.closeDb] else []
      { trace := pre ++ startEvts ++ retEvts ++
          [Event.waitReturned none] ++ closeEvts ++ [Event.runReturned]
        outputs := outs
        ctx := some Ctx.group
        outcome := Outcome.returned }

/-- (a *app).Run, lines 75-118 of app.go, with a.config = cfg.  The shutdown
handler and the a.ctx assignment happen first; then the console output is
added unless explicitly disabled; then the handler and the chain objects are
constructed; then, only when Postgres is configured, the database is
constructed, connected and migrated (each failure is a fatal logger call that
exits the process at once, skipping any pending defer) and registered; then
the tasks start and Run waits. -/
def run (cfg : Config) (ext : RunExt) : RunResult :=
  let consoleOuts := if consoleEnabled cfg then [Dest.console] else []
  let pre0 := (if consoleEnabled cfg then [Event.registerConsole] else []) ++
      [Event.constructHandler, Event.constructChains]
  match cfg.outputs.postgres with
  | none => startAndWait cfg ext consoleOuts pre0 false
  | some pg =>
      let pre1 := pre0 ++ [Event.constructDatabase, Event.connectAttempt pg.url]
      match ext.connectResult with
      | some _ =>
          { trace := pre1 ++ [Event.fatalExit FatalKind.connectFailed]
            outputs := consoleOuts
            ctx := some Ctx.group
            outcome := Outcome.exited FatalKind.connectFailed }
      | none =>
          let pre2 := pre1 ++ [Event.connectOk]
          match ext.migrateResult with
          | some _ =>
              { trace := pre2 ++ [Event.fatalExit FatalKind.migrateFailed]
                outputs := consoleOuts
                ctx := some Ctx.group
                outcome := Outcome.exited FatalKind.migrateFailed }
          | none =>
              startAndWait cfg ext (consoleOuts ++ [Dest.db])
                (pre2 ++ [Event.migrateOk, Event.registerDb]) true

/-- An observed on-chain event (origin chain, origin contract, payload). -/
structure Ev where
  chain : String
  contract : String
  payload : String
deriving DecidableEq

/-- Modelled from the spec: Outputs.Dispatch (the fan-out broadcaster, whose
source file is absent from src) delivers the event to every registered
destination in registration order; a failure at one destination is contained
and does not stop delivery to the rest. -/
def dispatch (dests : List Dest) (e : Ev) : List (Dest × Ev) :=
  dests.map (fun d => (d, e))

/-- Startup reaches the task-start phase: either no Postgres is configured,
or both Connect and MigrateSchema return nil. -/
def startupOk (cfg : Config) (ext : RunExt) : Prop :=
  cfg.outputs.postgres = none ∨ (ext.connectResult = none ∧ ext.migrateResult = none)

/-- Sample error value used by concrete witnesses. -/
def errBoom : Err :=
  ⟨"boom"⟩

/-- A configuration with two chains, implicit console, no Postgres. -/
def cfgConsoleOnly : Config :=
  { outputs := { console := none, postgres := none }, chains := ["one", "two"] }

/-- A configuration with one chain and a configured Postgres store. -/
def cfgWithDb : Config :=
  { outputs := { console := none, postgres := some ⟨"pg-addr"⟩ }, chains := ["one"] }

/-- External behaviours where everything succeeds and shutdown is requested. -/
def extOk : RunExt :=
  { connectResult := none
    migrateResult := none
    chainRunLoopOutcome := fun _ => none
    serviceResult := none
    shutdownSignal := true }

/-- External behaviours where the server goroutine returns an error. -/
def extServiceFails : RunExt :=
  { extOk with serviceResult := some errBoom, shutdownSignal := false }

/-- External behaviours where db.Connect returns an error. -/
def extConnectFails : RunExt :=
  { extOk with connectResult := some errBoom }

/-- The events Run emits after Wait on the Postgres-configured success path:
fatal exit without running the defer on a service error, otherwise the
deferred db.Close followed by a normal return. -/
def dbTail (ext : RunExt) : List Event :=
  match ext.serviceResult with
  | some e => [Event.waitReturned (some e), Event.fatalExit (FatalKind.appError e)]
  | none => [Event.waitReturned none, Event.closeDb, Event.runReturned]

/-- The events Run emits after Wait when no Postgres store is configured. -/
def noDbTail (ext : RunExt) : List Event :=
  match ext.serviceResult with
  | some e => [Event.waitReturned (some e), Event.fatalExit (FatalKind.appError e)]
  | none => [Event.waitReturned none, Event.runReturned]

/-- Whether Run ends up registering the durable store: Postgres configured
and both Connect and MigrateSchema returned nil. -/
def dbRegistered (cfg : Config) (ext : RunExt) : Bool :=
  cfg.outputs.postgres.isSome && ext.connectResult.isNone && ext.migrateResult.isNone

/-- A loaded contract definition. Modelled from the spec: an on-chain entity
of interest associated with exactly one chain. -/
structure Contract where
  chain : String
  name : String
deriving DecidableEq

/-- An opaque zap production logger object (a non-nil pointer). -/
inductive ZapLogger
  | prod
deriving DecidableEq

/-- External behaviours observed during NewApp: the pair returned by
zap.NewProduction (logger pointer, error), the result of LoadConfigJSON and
the result of LoadContracts (both modelled from the spec, their source files
being absent from src: each either yields its value or fails). -/
structure NewAppExt where
  zapResult : Option ZapLogger × Option Err
  configResult : Except Err Config
  contractsResult : Except Err (List Contract)

/-- The fields of the app struct: ctx is a Go interface field that NewApp
leaves at its zero value nil (none) and only Run assigns. -/
structure AppState where
  ctx : Option Ctx
  config : Config
  contracts : List Contract
deriving DecidableEq

/-- How a call to NewApp can end.  A nil logger pointer makes the method call
zapLogger.Sugar() dereference nil and panic (Go runtime semantics: Sugar
reads a field of its receiver); a config or contract load failure is a
logger.Fatalf call that exits the process. -/
inductive NewAppOutcome
  | panicked
  | exitedConfigLoad
  | exitedContractsLoad
  | ok (a : AppState)
deriving DecidableEq

/-- NewApp, lines 32-53 of app.go: destructures the zap.NewProduction pair
keeping only the first component (the error is bound to the blank identifier
and discarded), dereferences the logger, loads the config, loads the
contracts, and builds the app with the ctx field unset. -/
def newApp (ext : NewAppExt) : NewAppOutcome :=
  match ext.zapResult.1 with
  | none => NewAppOutcome.panicked
  | some _ =>
      match ext.configResult with
      | Except.error _ => NewAppOutcome.exitedConfigLoad
      | Except.ok config =>
          match ext.contractsResult with
          | Except.error _ => NewAppOutcome.exitedContractsLoad
          | Except.ok contracts =>
              NewAppOutcome.ok { ctx := none, config := config, contracts := contracts }

/-- The Context accessor, lines 55-57 of app.go: returns the ctx field. -/
def appContext (a : AppState) : Option Ctx :=
  a.ctx

/-- NewApp externals where everything succeeds. -/
def extNewOk : NewAppExt :=
  { zapResult := (some ZapLogger.prod, none)
    configResult := Except.ok cfgConsoleOnly
    contractsResult := Except.ok [] }

/-- NewApp externals where zap.NewProduction fails and returns a nil logger. -/
def extZapFails : NewAppExt :=
  { extNewOk with zapResult := (none, some errBoom) }

/-- A configuration whose console section is explicitly disabled and which
has no Postgres section, leaving the destination list empty. -/
def cfgSilent : Config :=
  { outputs := { console := some ⟨true⟩, postgres := none }, chains := ["one"] }

/-! ## Helper lemmas -/

theorem chainGoFn_eq_none (ext : RunExt) (i : Nat) : chainGoFn ext i = none :=
  rfl

theorem findSome?_id_all_none_append (l : List (Option Err))
    (h : ∀ x ∈ l, x = none) (s : Option Err) :
    List.findSome? id (l ++ [s]) = s := by
  induction l with
  | nil => cases s <;> rfl
  | cons a t ih =>
      have ha : a = none := h a (List.mem_cons_self a t)
      subst ha
      simpa using ih (fun x hx => h x (List.mem_cons_of_mem _ hx))

theorem groupWait_taskResults (cfg : Config) (ext : RunExt) :
    groupWait (taskResults cfg ext) = ext.serviceResult := by
  unfold groupWait taskResults
  exact findSome?_id_all_none_append _ (by intro x hx; simp [List.mem_map] at hx; obtain ⟨a, _, ha⟩ := hx; rw [← ha]; rfl) _

theorem scopeCancelled_eq (cfg : Config) (ext : RunExt) :
    scopeCancelled cfg ext = (ext.shutdownSignal || ext.serviceResult.isSome) := by
  unfold scopeCancelled
  rw [groupWait_taskResults]

theorem sublist_shift {α : Type} {l l₂ : List α} (p : List α) (h : l.Sublist l₂) :
    l.Sublist (p ++ l₂) :=
  h.trans (List.sublist_append_right p l₂)

theorem startAndWait_service_some (cfg : Config) (ext : RunExt) (outs : List Dest)
    (pre : List Event) (hd : Bool) (e : Err) (hs : ext.serviceResult = some e) :
    startAndWait cfg ext outs pre hd =
      { trace := pre ++ ((List.range cfg.chains.length).map Event.chainTaskStarted ++ [Event.serviceTaskStarted]) ++
          ((List.range cfg.chains.length).map Event.chainTaskReturned ++ [Event.serviceTaskReturned]) ++
          [Event.waitReturned (some e), Event.fatalExit (FatalKind.appError e)]
        outputs := outs
        ctx := some Ctx.group
        outcome := Outcome.exited (FatalKind.appError e) } := by
  unfold startAndWait
  rw [groupWait_taskResults, hs]

theorem startAndWait_service_none (cfg : Config) (ext : RunExt) (outs : List Dest)
    (pre : List Event) (hd : Bool) (hs : ext.serviceResult = none) :
    startAndWait cfg ext outs pre hd =
      { trace := pre ++ ((List.range cfg.chains.length).map Event.chainTaskStarted ++ [Event.serviceTaskStarted]) ++
          ((List.range cfg.chains.length).map Event.chainTaskReturned ++ [Event.serviceTaskReturned]) ++
          [Event.waitReturned none] ++ (if hd then [Event.closeDb] else []) ++ [Event.runReturned]
        outputs := outs
        ctx := some Ctx.group
        outcome := Outcome.returned } := by
  unfold startAndWait
  rw [groupWait_taskResults, hs]

theorem run_postgres_none (cfg : Config) (ext : RunExt)
    (h : cfg.outputs.postgres = none) :
    run cfg ext = startAndWait cfg ext
      (if consoleEnabled cfg then [Dest.console] else [])
      ((if consoleEnabled cfg then [Event.registerConsole] else []) ++
        [Event.constructHandler, Event.constructChains]) false := by
  unfold run
  rw [h]

theorem run_postgres_ok (cfg : Config) (ext : RunExt) (pg : PostgresConfig)
    (hpg : cfg.outputs.postgres = some pg)
    (hc : ext.connectResult = none) (hm : ext.migrateResult = none) :
    run cfg ext = startAndWait cfg ext
      ((if consoleEnabled cfg then [Dest.console] else []) ++ [Dest.db])
      (((if consoleEnabled cfg then [Event.registerConsole] else []) ++
          [Event.constructHandler, Event.constructChains]) ++
        [Event.constructDatabase, Event.connectAttempt pg.url] ++
        [Event.connectOk] ++ [Event.migrateOk, Event.registerDb]) true := by
  unfold run
  rw [hpg, hc, hm]

theorem run_connect_fails (cfg : Config) (ext : RunExt) (pg : PostgresConfig) (e : Err)
    (hpg : cfg.outputs.postgres = some pg) (hc : ext.connectResult = some e) :
    run cfg ext =
      { trace := ((if consoleEnabled cfg then [Event.registerConsole] else []) ++
            [Event.constructHandler, Event.constructChains]) ++
          [Event.constructDatabase, Event.connectAttempt pg.url] ++
          [Event.fatalExit FatalKind.connectFailed]
        outputs := if consoleEnabled cfg then [Dest.console] else []
        ctx := some Ctx.group
        outcome := Outcome.exited FatalKind.connectFailed } := by
  unfold run
  rw [hpg, hc]

theorem run_migrate_fails (cfg : Config) (ext : RunExt) (pg : PostgresConfig) (e : Err)
    (hpg : cfg.outputs.postgres = some pg) (hc : ext.connectResult = none)
    (hm : ext.migrateResult = some e) :
    run cfg ext =
      { trace := ((if consoleEnabled cfg then [Event.registerConsole] else []) ++
            [Event.constructHandler, Event.constructChains]) ++
          [Event.constructDatabase, Event.connectAttempt pg.url] ++
          [Event.connectOk] ++ [Event.fatalExit FatalKind.migrateFailed]
        outputs := if consoleEnabled cfg then [Dest.console] else []
        ctx := some Ctx.group
        outcome := Outcome.exited FatalKind.migrateFailed } := by
  unfold run
  rw [hpg, hc, hm]

theorem run_db_ok_trace (cfg : Config) (ext : RunExt) (pg : PostgresConfig)
    (hpg : cfg.outputs.postgres = some pg) (hc : ext.connectResult = none)
    (hm : ext.migrateResult = none) :
    (run cfg ext).trace =
      ((if consoleEnabled cfg then [Event.registerConsole] else []) ++
        [Event.constructHandler, Event.constructChains, Event.constructDatabase,
          Event.connectAttempt pg.url, Event.connectOk, Event.migrateOk, Event.registerDb]) ++
      ((List.range cfg.chains.length).map Event.chainTaskStarted ++
        (Event.serviceTaskStarted ::
          ((List.range cfg.chains.length).map Event.chainTaskReturned ++
            (Event.serviceTaskReturned :: dbTail ext)))) := by
  cases hs : ext.serviceResult with
  | none =>
      rw [run_postgres_ok cfg ext pg hpg hc hm, startAndWait_service_none cfg ext _ _ _ hs]
      simp [dbTail, hs]
  | some e =>
      rw [run_postgres_ok cfg ext pg hpg hc hm, startAndWait_service_some cfg ext _ _ _ e hs]
      simp [dbTail, hs]

theorem run_db_ok_outputs (cfg : Config) (ext : RunExt) (pg : PostgresConfig)
    (hpg : cfg.outputs.postgres = some pg) (hc : ext.connectResult = none)
    (hm : ext.migrateResult = none) :
    (run cfg ext).outputs = (if consoleEnabled cfg then [Dest.console] else []) ++ [Dest.db] := by
  cases hs : ext.serviceResult with
  | none =>
      rw [run_postgres_ok cfg ext pg hpg hc hm, startAndWait_service_none cfg ext _ _ _ hs]
  | some e =>
      rw [run_postgres_ok cfg ext pg hpg hc hm, startAndWait_service_some cfg ext _ _ _ e hs]

theorem run_no_db_outputs (cfg : Config) (ext : RunExt)
    (h : cfg.outputs.postgres = none) :
    (run cfg ext).outputs = (if consoleEnabled cfg then [Dest.console] else []) := by
  cases hs : ext.serviceResult with
  | none =>
      rw [run_postgres_none cfg ext h, startAndWait_service_none cfg ext _ _ _ hs]
  | some e =>
      rw [run_postgres_none cfg ext h, startAndWait_service_some cfg ext _ _ _ e hs]

theorem run_no_db_trace (cfg : Config) (ext : RunExt)
    (h : cfg.outputs.postgres = none) :
    (run cfg ext).trace =
      ((if consoleEnabled cfg then [Event.registerConsole] else []) ++
        [Event.constructHandler, Event.constructChains]) ++
      ((List.range cfg.chains.length).map Event.chainTaskStarted ++
        (Event.serviceTaskStarted ::
          ((List.range cfg.chains.length).map Event.chainTaskReturned ++
            (Event.serviceTaskReturned :: noDbTail ext)))) := by
  cases hs : ext.serviceResult with
  | none =>
      rw [run_postgres_none cfg ext h, startAndWait_service_none cfg ext _ _ _ hs]
      simp [noDbTail, hs]
  | some e =>
      rw [run_postgres_none cfg ext h, startAndWait_service_some cfg ext _ _ _ e hs]
      simp [noDbTail, hs]

theorem run_outputs_eq (cfg : Config) (ext : RunExt) :
    (run cfg ext).outputs =
      (if consoleEnabled cfg then [Dest.console] else []) ++
      (if dbRegistered cfg ext then [Dest.db] else []) := by
  cases hpg : cfg.outputs.postgres with
  | none =>
      rw [run_no_db_outputs cfg ext hpg]
      simp [dbRegistered, hpg]
  | some pg =>
      cases hc : ext.connectResult with
      | some e =>
          rw [run_connect_fails cfg ext pg e hpg hc]
          simp [dbRegistered, hpg, hc]
      | none =>
          cases hm : ext.migrateResult with
          | some e =>
              rw [run_migrate_fails cfg ext pg e hpg hc hm]
              simp [dbRegistered, hpg, hc, hm]
          | none =>
              rw [run_db_ok_outputs cfg ext pg hpg hc hm]
              simp [dbRegistered, hpg, hc, hm]

theorem run_ctx_eq (cfg : Config) (ext : RunExt) :
    (run cfg ext).ctx = some Ctx.group := by
  cases hpg : cfg.outputs.postgres with
  | none =>
      cases hs : ext.serviceResult with
      | none => rw [run_postgres_none cfg ext hpg, startAndWait_service_none cfg ext _ _ _ hs]
      | some e => rw [run_postgres_none cfg ext hpg, startAndWait_service_some cfg ext _ _ _ e hs]
  | some pg =>
      cases hc : ext.connectResult with
      | some e => rw [run_connect_fails cfg ext pg e hpg hc]
      | none =>
          cases hm : ext.migrateResult with
          | some e => rw [run_migrate_fails cfg ext pg e hpg hc hm]
          | none =>
              cases hs : ext.serviceResult with
              | none =>
                  rw [run_postgres_ok cfg ext pg hpg hc hm,
                    startAndWait_service_none cfg ext _ _ _ hs]
              | some e =>
                  rw [run_postgres_ok cfg ext pg hpg hc hm,
                    startAndWait_service_some cfg ext _ _ _ e hs]

theorem count_console_ite (b : Bool) (e : Event) (h : ¬ e = Event.registerConsole) :
    (if b then [Event.registerConsole] else []).count e = 0 := by
  cases b <;> simp [h]

theorem count_map_nat_event_zero (f : Nat → Event) (n : Nat) (e : Event)
    (h : ∀ i, ¬ e = f i) : ((List.range n).map f).count e = 0 := by
  rw [List.count_eq_zero]
  intro hm
  rw [List.mem_map] at hm
  obtain ⟨a, _, ha⟩ := hm
  exact h a ha.symm

/-! ## Claim theorems -/

/-- C1: for every chain task started by Run, the function passed to the task
group calls the chain RunLoop, discards any outcome, and returns nil
unconditionally; consequently the group outcome returned by Wait equals the
service goroutine result alone, and the scope cancellation state depends only
on the shutdown signal and the service result, never on any chain internal
failure. -/
theorem chain_task_fn_returns_nil :
    (∀ (ext : RunExt) (i : Nat), chainGoFn ext i = none) ∧
    (∀ (cfg : Config) (ext : RunExt), groupWait (taskResults cfg ext) = ext.serviceResult) ∧
    (∀ (cfg : Config) (ext : RunExt),
      scopeCancelled cfg ext = (ext.shutdownSignal || ext.serviceResult.isSome)) :=
  ⟨chainGoFn_eq_none, groupWait_taskResults, scopeCancelled_eq⟩

/-- C2: when startup reaches the task phase, a non-nil service result is the
value returned by Wait, the shared scope is cancelled, the process exits
fatally and only after every task (each chain goroutine and the service
goroutine) has returned; a nil service result makes Wait return nil and Run
return normally. -/
theorem service_error_propagates (cfg : Config) (ext : RunExt)
    (hstart : startupOk cfg ext) :
    (∀ e : Err, ext.serviceResult = some e →
      (run cfg ext).outcome = Outcome.exited (FatalKind.appError e) ∧
      scopeCancelled cfg ext = true ∧
      [Event.serviceTaskReturned, Event.waitReturned (some e),
        Event.fatalExit (FatalKind.appError e)].Sublist (run cfg ext).trace ∧
      (∀ i, i < cfg.chains.length →
        [Event.chainTaskReturned i, Event.waitReturned (some e)].Sublist (run cfg ext).trace)) ∧
    (ext.serviceResult = none →
      (run cfg ext).outcome = Outcome.returned ∧
      Event.waitReturned none ∈ (run cfg ext).trace) := by
  have hrun : ∃ outs pre hd, run cfg ext = startAndWait cfg ext outs pre hd := by
    rcases hstart with h | ⟨hc, hm⟩
    · exact ⟨_, _, _, run_postgres_none cfg ext h⟩
    · cases hpg : cfg.outputs.postgres with
      | none => exact ⟨_, _, _, run_postgres_none cfg ext hpg⟩
      | some pg => exact ⟨_, _, _, run_postgres_ok cfg ext pg hpg hc hm⟩
  obtain ⟨outs, pre, hd, hrun⟩ := hrun
  constructor
  · intro e hs
    rw [hrun, startAndWait_service_some cfg ext outs pre hd e hs]
    refine ⟨rfl, ?_, ?_, ?_⟩
    · rw [scopeCancelled_eq, hs]; simp
    · have h1 : [Event.serviceTaskReturned].Sublist
          ((List.range cfg.chains.length).map Event.chainTaskReturned ++ [Event.serviceTaskReturned]) :=
        List.singleton_sublist.mpr (by simp)
      have h2 := h1.append (List.Sublist.refl
        [Event.waitReturned (some e), Event.fatalExit (FatalKind.appError e)])
      simpa [List.append_assoc] using sublist_shift
        (pre ++ ((List.range cfg.chains.length).map Event.chainTaskStarted ++ [Event.serviceTaskStarted])) h2
    · intro i hi
      have h1 : [Event.chainTaskReturned i].Sublist
          ((List.range cfg.chains.length).map Event.chainTaskReturned ++ [Event.serviceTaskReturned]) :=
        List.singleton_sublist.mpr
          (List.mem_append_left _ (List.mem_map.mpr ⟨i, List.mem_range.mpr hi, rfl⟩))
      have hw : [Event.waitReturned (some e)].Sublist
          [Event.waitReturned (some e), Event.fatalExit (FatalKind.appError e)] := by
        simp
      have h2 := h1.append hw
      simpa [List.append_assoc] using sublist_shift
        (pre ++ ((List.range cfg.chains.length).map Event.chainTaskStarted ++ [Event.serviceTaskStarted])) h2
  · intro hs
    rw [hrun, startAndWait_service_none cfg ext outs pre hd hs]
    exact ⟨rfl, by simp⟩

/-- Witness for C2 at a concrete configuration: two chains, no Postgres,
service goroutine returns errBoom. -/
theorem service_error_propagates_witness :
    (run cfgConsoleOnly extServiceFails).outcome = Outcome.exited (FatalKind.appError errBoom) :=
  ((service_error_propagates cfgConsoleOnly extServiceFails (Or.inl rfl)).1 errBoom rfl).1

/-- C3: with Postgres configured, if Connect and MigrateSchema both return
nil then the store is in the output list and the trace splits into a prefix
holding connect success, migrate success and registration in that order, and
a suffix holding every task start, so every gate step precedes every task
start; if either step fails, the store is never registered and no task ever
starts. -/
theorem durable_store_gated (cfg : Config) (ext : RunExt) (pg : PostgresConfig)
    (hpg : cfg.outputs.postgres = some pg) :
    (ext.connectResult = none → ext.migrateResult = none →
      Dest.db ∈ (run cfg ext).outputs ∧
      ∃ p q, (run cfg ext).trace = p ++ q ∧
        [Event.connectOk, Event.migrateOk, Event.registerDb].Sublist p ∧
        Event.connectOk ∉ q ∧ Event.migrateOk ∉ q ∧ Event.registerDb ∉ q ∧
        (∀ i, Event.chainTaskStarted i ∉ p) ∧ Event.serviceTaskStarted ∉ p ∧
        (∀ i, i < cfg.chains.length → Event.chainTaskStarted i ∈ q) ∧
        Event.serviceTaskStarted ∈ q) ∧
    (∀ e, ext.connectResult = some e →
      Dest.db ∉ (run cfg ext).outputs ∧
      Event.registerDb ∉ (run cfg ext).trace ∧
      Event.migrateOk ∉ (run cfg ext).trace ∧
      Event.serviceTaskStarted ∉ (run cfg ext).trace ∧
      (∀ i, Event.chainTaskStarted i ∉ (run cfg ext).trace)) ∧
    (∀ e, ext.connectResult = none → ext.migrateResult = some e →
      Dest.db ∉ (run cfg ext).outputs ∧
      Event.registerDb ∉ (run cfg ext).trace ∧
      Event.serviceTaskStarted ∉ (run cfg ext).trace ∧
      (∀ i, Event.chainTaskStarted i ∉ (run cfg ext).trace)) := by
  refine ⟨?_, ?_, ?_⟩
  · intro hc hm
    refine ⟨?_, ?_⟩
    · rw [run_db_ok_outputs cfg ext pg hpg hc hm]; simp
    · refine ⟨(if consoleEnabled cfg then [Event.registerConsole] else []) ++
        [Event.constructHandler, Event.constructChains, Event.constructDatabase,
          Event.connectAttempt pg.url, Event.connectOk, Event.migrateOk, Event.registerDb],
        (List.range cfg.chains.length).map Event.chainTaskStarted ++
          (Event.serviceTaskStarted ::
            ((List.range cfg.chains.length).map Event.chainTaskReturned ++
              (Event.serviceTaskReturned :: dbTail ext))),
        run_db_ok_trace cfg ext pg hpg hc hm, ?_, ?_, ?_, ?_, ?_, ?_, ?_, ?_⟩
      · refine sublist_shift _ ?_
        refine List.Sublist.cons Event.constructHandler ?_
        refine List.Sublist.cons Event.constructChains ?_
        refine List.Sublist.cons Event.constructDatabase ?_
        refine List.Sublist.cons (Event.connectAttempt pg.url) ?_
        exact List.Sublist.refl _
      · unfold dbTail
        cases ext.serviceResult <;> simp [List.mem_map]
      · unfold dbTail
        cases ext.serviceResult <;> simp [List.mem_map]
      · unfold dbTail
        cases ext.serviceResult <;> simp [List.mem_map]
      · intro i
        cases consoleEnabled cfg <;> simp
      · cases consoleEnabled cfg <;> simp
      · intro i hi
        exact List.mem_append_left _ (List.mem_map.mpr ⟨i, List.mem_range.mpr hi, rfl⟩)
      · exact List.mem_append_right _ (List.mem_cons_self _ _)
  · intro e hc
    rw [run_connect_fails cfg ext pg e hpg hc]
    refine ⟨?_, ?_, ?_, ?_, ?_⟩
    · cases consoleEnabled cfg <;> simp
    · cases consoleEnabled cfg <;> simp
    · cases consoleEnabled cfg <;> simp
    · cases consoleEnabled cfg <;> simp
    · intro i; cases consoleEnabled cfg <;> simp
  · intro e hc hm
    rw [run_migrate_fails cfg ext pg e hpg hc hm]
    refine ⟨?_, ?_, ?_, ?_⟩
    · cases consoleEnabled cfg <;> simp
    · cases consoleEnabled cfg <;> simp
    · cases consoleEnabled cfg <;> simp
    · intro i; cases consoleEnabled cfg <;> simp

/-- Witness for C3: one chain and a configured store with all steps
succeeding, so the store ends up registered in the output list. -/
theorem durable_store_gated_witness :
    Dest.db ∈ (run cfgWithDb extOk).outputs :=
  ((durable_store_gated cfgWithDb extOk ⟨"pg-addr"⟩ rfl).1 rfl rfl).1

/-- C4 counterexample: with the store connected and migrated, a service error
makes Wait return that error and Run call logger.Fatalf, which exits the
process without running the deferred db.Close, so the release operation does
not run on the propagated-failure exit path. -/
theorem db_close_skipped_on_fatal_path :
    (run cfgWithDb extServiceFails).outcome = Outcome.exited (FatalKind.appError errBoom) ∧
    Event.waitReturned (some errBoom) ∈ (run cfgWithDb extServiceFails).trace ∧
    Event.closeDb ∉ (run cfgWithDb extServiceFails).trace := by
  decide

/-- C4 amended: with the store connected and migrated, db.Close runs exactly
once on the normal-completion path, after every task has returned; on the
path where Wait returns a propagated failure the process exits fatally and
the deferred db.Close never runs (likewise it cannot run when MigrateSchema
itself fails fatally). -/
theorem db_close_exit_paths (cfg : Config) (ext : RunExt) (pg : PostgresConfig)
    (hpg : cfg.outputs.postgres = some pg) (hc : ext.connectResult = none) :
    (ext.migrateResult = none →
      (ext.serviceResult = none →
        (run cfg ext).trace.count Event.closeDb = 1 ∧
        [Event.serviceTaskReturned, Event.closeDb].Sublist (run cfg ext).trace ∧
        (∀ i, i < cfg.chains.length →
          [Event.chainTaskReturned i, Event.closeDb].Sublist (run cfg ext).trace)) ∧
      (∀ e, ext.serviceResult = some e → Event.closeDb ∉ (run cfg ext).trace)) ∧
    (∀ e, ext.migrateResult = some e → Event.closeDb ∉ (run cfg ext).trace) := by
  constructor
  · intro hm
    constructor
    · intro hs
      have hdb : dbTail ext = [Event.waitReturned none, Event.closeDb, Event.runReturned] := by
        unfold dbTail
        rw [hs]
      refine ⟨?_, ?_, ?_⟩
      · rw [run_db_ok_trace cfg ext pg hpg hc hm, hdb]
        simp [List.count_append, count_console_ite, count_map_nat_event_zero]
      · have h0 : [Event.closeDb].Sublist (dbTail ext) := by
          rw [hdb]; simp
        have h1 := List.Sublist.cons₂ Event.serviceTaskReturned h0
        have h2 := sublist_shift ((List.range cfg.chains.length).map Event.chainTaskReturned) h1
        have h3 := List.Sublist.cons Event.serviceTaskStarted h2
        have h4 := sublist_shift ((List.range cfg.chains.length).map Event.chainTaskStarted) h3
        have h5 := sublist_shift ((if consoleEnabled cfg then [Event.registerConsole] else []) ++
          [Event.constructHandler, Event.constructChains, Event.constructDatabase,
            Event.connectAttempt pg.url, Event.connectOk, Event.migrateOk, Event.registerDb]) h4
        rw [run_db_ok_trace cfg ext pg hpg hc hm]
        exact h5
      · intro i hi
        have h0 : [Event.closeDb].Sublist (Event.serviceTaskReturned :: dbTail ext) := by
          rw [hdb]; simp
        have h1 : [Event.chainTaskReturned i].Sublist
            ((List.range cfg.chains.length).map Event.chainTaskReturned) :=
          List.singleton_sublist.mpr (List.mem_map.mpr ⟨i, List.mem_range.mpr hi, rfl⟩)
        have h2 := h1.append h0
        have h3 := List.Sublist.cons Event.serviceTaskStarted h2
        have h4 := sublist_shift ((List.range cfg.chains.length).map Event.chainTaskStarted) h3
        have h5 := sublist_shift ((if consoleEnabled cfg then [Event.registerConsole] else []) ++
          [Event.constructHandler, Event.constructChains, Event.constructDatabase,
            Event.connectAttempt pg.url, Event.connectOk, Event.migrateOk, Event.registerDb]) h4
        rw [run_db_ok_trace cfg ext pg hpg hc hm]
        exact h5
    · intro e hs
      have hdb : dbTail ext = [Event.waitReturned (some e), Event.fatalExit (FatalKind.appError e)] := by
        unfold dbTail
        rw [hs]
      rw [run_db_ok_trace cfg ext pg hpg hc hm, hdb]
      cases consoleEnabled cfg <;> simp [List.mem_map]
  · intro e hm
    rw [run_migrate_fails cfg ext pg e hpg hc hm]
    cases consoleEnabled cfg <;> simp

/-- Witness for the amended C4 at a concrete successful execution. -/
theorem db_close_exit_paths_witness :
    (run cfgWithDb extOk).trace.count Event.closeDb = 1 :=
  (((db_close_exit_paths cfgWithDb extOk ⟨"pg-addr"⟩ rfl rfl).1 rfl).1 rfl).1

/-- C5 counterexample: with an unreachable store address Run does exit
fatally at the Connect step, but NewChains has already run: the chain
construction step occurs in the trace strictly before the fatal exit, so the
exit is not before any Chain Task object is constructed. -/
theorem chains_constructed_before_connect_failure :
    (run cfgWithDb extConnectFails).outcome = Outcome.exited FatalKind.connectFailed ∧
    Event.constructChains ∈ (run cfgWithDb extConnectFails).trace ∧
    [Event.constructChains, Event.connectAttempt ("pg-addr"),
      Event.fatalExit FatalKind.connectFailed].Sublist (run cfgWithDb extConnectFails).trace := by
  decide

/-- C5 amended: when the configured store address is unreachable, Run exits
fatally at the Connect step before any task is started — no chain goroutine
and no service goroutine ever starts, and the store is never registered —
but the chain objects themselves have already been constructed by then. -/
theorem connect_failure_fatal_before_tasks (cfg : Config) (ext : RunExt)
    (pg : PostgresConfig) (e : Err)
    (hpg : cfg.outputs.postgres = some pg) (hc : ext.connectResult = some e) :
    (run cfg ext).outcome = Outcome.exited FatalKind.connectFailed ∧
    Event.connectAttempt pg.url ∈ (run cfg ext).trace ∧
    Event.constructChains ∈ (run cfg ext).trace ∧
    Event.serviceTaskStarted ∉ (run cfg ext).trace ∧
    (∀ i, Event.chainTaskStarted i ∉ (run cfg ext).trace) ∧
    Event.registerDb ∉ (run cfg ext).trace ∧
    Dest.db ∉ (run cfg ext).outputs := by
  rw [run_connect_fails cfg ext pg e hpg hc]
  refine ⟨rfl, ?_, ?_, ?_, ?_, ?_, ?_⟩
  · cases consoleEnabled cfg <;> simp
  · cases consoleEnabled cfg <;> simp
  · cases consoleEnabled cfg <;> simp
  · intro i; cases consoleEnabled cfg <;> simp
  · cases consoleEnabled cfg <;> simp
  · cases consoleEnabled cfg <;> simp

/-- Witness for the amended C5 at the concrete unreachable-store execution. -/
theorem connect_failure_fatal_before_tasks_witness :
    (run cfgWithDb extConnectFails).outcome = Outcome.exited FatalKind.connectFailed :=
  (connect_failure_fatal_before_tasks cfgWithDb extConnectFails ⟨"pg-addr"⟩ errBoom rfl rfl).1

theorem consoleEnabled_iff (cfg : Config) :
    consoleEnabled cfg = true ↔
      (cfg.outputs.console = none ∨ ∃ c, cfg.outputs.console = some c ∧ c.disabled = false) := by
  unfold consoleEnabled
  cases hc : cfg.outputs.console with
  | none => simp
  | some c =>
      simp only [Bool.not_eq_true']
      constructor
      · intro h
        exact Or.inr ⟨c, rfl, h⟩
      · rintro (h | ⟨c2, hc2, hd2⟩)
        · exact absurd h (by simp)
        · injection hc2 with h2
          rw [h2]
          exact hd2

/-- C6: the console destination is in the finalized output list exactly when
the console section is absent or not explicitly disabled; the durable-store
code path (database construction) is entered exactly when the Postgres
section is present; with Postgres absent no database object is constructed
and no store is ever in the output list. -/
theorem destinations_enablement (cfg : Config) (ext : RunExt) :
    (Dest.console ∈ (run cfg ext).outputs ↔
      (cfg.outputs.console = none ∨ ∃ c, cfg.outputs.console = some c ∧ c.disabled = false)) ∧
    (Event.constructDatabase ∈ (run cfg ext).trace ↔ ∃ pg, cfg.outputs.postgres = some pg) ∧
    (cfg.outputs.postgres = none →
      Event.constructDatabase ∉ (run cfg ext).trace ∧ Dest.db ∉ (run cfg ext).outputs) := by
  have hnone : cfg.outputs.postgres = none → Event.constructDatabase ∉ (run cfg ext).trace := by
    intro hpg hmem
    rw [run_no_db_trace cfg ext hpg] at hmem
    cases hs : ext.serviceResult <;> cases hce : consoleEnabled cfg <;>
      simp [noDbTail, hs, hce, List.mem_map] at hmem
  refine ⟨?_, ⟨?_, ?_⟩, ?_⟩
  · rw [run_outputs_eq, ← consoleEnabled_iff]
    cases consoleEnabled cfg <;> cases dbRegistered cfg ext <;> simp
  · intro hmem
    cases hpg : cfg.outputs.postgres with
    | none => exact absurd hmem (hnone hpg)
    | some pg => exact ⟨pg, rfl⟩
  · rintro ⟨pg, hpg⟩
    cases hc : ext.connectResult with
    | some e =>
        rw [run_connect_fails cfg ext pg e hpg hc]
        cases consoleEnabled cfg <;> simp
    | none =>
        cases hm : ext.migrateResult with
        | some e =>
            rw [run_migrate_fails cfg ext pg e hpg hc hm]
            cases consoleEnabled cfg <;> simp
        | none =>
            rw [run_db_ok_trace cfg ext pg hpg hc hm]
            cases consoleEnabled cfg <;> simp
  · intro hpg
    refine ⟨hnone hpg, ?_⟩
    rw [run_outputs_eq]
    have : dbRegistered cfg ext = false := by
      unfold dbRegistered
      rw [hpg]
      rfl
    rw [this]
    cases consoleEnabled cfg <;> simp

/-- Witness for C6: console-only configuration with no Postgres never
constructs the database and never registers the store. -/
theorem destinations_enablement_witness :
    Event.constructDatabase ∉ (run cfgConsoleOnly extOk).trace ∧
    Dest.db ∉ (run cfgConsoleOnly extOk).outputs :=
  (destinations_enablement cfgConsoleOnly extOk).2.2 rfl

/-- C7: when startup reaches the task phase, a delivered shutdown request
cancels the shared scope; if the service goroutine then returns nil, Wait
returns nil and Run returns normally, reaching its final return step and
never taking a fatal-exit step, because every chain goroutine returns nil by
construction. -/
theorem shutdown_then_clean_return (cfg : Config) (ext : RunExt)
    (hstart : startupOk cfg ext) (hshut : ext.shutdownSignal = true)
    (hs : ext.serviceResult = none) :
    scopeCancelled cfg ext = true ∧
    groupWait (taskResults cfg ext) = none ∧
    (run cfg ext).outcome = Outcome.returned ∧
    Event.waitReturned none ∈ (run cfg ext).trace ∧
    Event.runReturned ∈ (run cfg ext).trace ∧
    (∀ k, Event.fatalExit k ∉ (run cfg ext).trace) := by
  have hcan : scopeCancelled cfg ext = true := by
    rw [scopeCancelled_eq, hshut]
    rfl
  have hgw : groupWait (taskResults cfg ext) = none := by
    rw [groupWait_taskResults, hs]
  have hsplit : cfg.outputs.postgres = none ∨
      (∃ pg, cfg.outputs.postgres = some pg ∧
        ext.connectResult = none ∧ ext.migrateResult = none) := by
    rcases hstart with h | ⟨hc, hm⟩
    · exact Or.inl h
    · cases hpg : cfg.outputs.postgres with
      | none => exact Or.inl rfl
      | some pg => exact Or.inr ⟨pg, rfl, hc, hm⟩
  rcases hsplit with hpg | ⟨pg, hpg, hc, hm⟩
  · refine ⟨hcan, hgw, ?_, ?_, ?_, ?_⟩
    · rw [run_postgres_none cfg ext hpg, startAndWait_service_none cfg ext _ _ _ hs]
    · rw [run_no_db_trace cfg ext hpg]
      simp [noDbTail, hs]
    · rw [run_no_db_trace cfg ext hpg]
      simp [noDbTail, hs]
    · intro k
      rw [run_no_db_trace cfg ext hpg]
      cases hce : consoleEnabled cfg <;> simp [noDbTail, hs, hce, List.mem_map]
  · refine ⟨hcan, hgw, ?_, ?_, ?_, ?_⟩
    · rw [run_postgres_ok cfg ext pg hpg hc hm, startAndWait_service_none cfg ext _ _ _ hs]
    · rw [run_db_ok_trace cfg ext pg hpg hc hm]
      simp [dbTail, hs]
    · rw [run_db_ok_trace cfg ext pg hpg hc hm]
      simp [dbTail, hs]
    · intro k
      rw [run_db_ok_trace cfg ext pg hpg hc hm]
      cases hce : consoleEnabled cfg <;> simp [dbTail, hs, hce, List.mem_map]

/-- Witness for C7: console-only configuration, shutdown requested, service
goroutine returns nil, so Run returns normally. -/
theorem shutdown_then_clean_return_witness :
    (run cfgConsoleOnly extOk).outcome = Outcome.returned :=
  (shutdown_then_clean_return cfgConsoleOnly extOk (Or.inl rfl) rfl rfl).2.2.1

/-- C8: whenever NewApp returns an app, that app has a nil ctx field, so the
Context accessor yields nil until Run — which is where ctx is assigned the
group context — has been called. -/
theorem context_nil_before_run :
    (∀ (ext : NewAppExt) (a : AppState),
      newApp ext = NewAppOutcome.ok a → appContext a = none) ∧
    (∀ (cfg : Config) (ext : RunExt), (run cfg ext).ctx = some Ctx.group) := by
  constructor
  · intro ext a h
    unfold newApp at h
    split at h
    · exact absurd h (by simp)
    · split at h
      · exact absurd h (by simp)
      · split at h
        · exact absurd h (by simp)
        · injection h with h2
          rw [← h2]
          rfl
  · exact run_ctx_eq

/-- Witness for C8 at a concrete successful NewApp call. -/
theorem context_nil_before_run_witness :
    appContext { ctx := none, config := cfgConsoleOnly, contracts := [] } = none :=
  context_nil_before_run.1 extNewOk { ctx := none, config := cfgConsoleOnly, contracts := [] } rfl

/-- C9: NewApp ignores the error component of the zap.NewProduction result
(its outcome depends only on the logger component and the two loaders), and
in any environment where the constructor fails and hands back a nil logger,
NewApp panics on the nil dereference instead of reporting the failure. -/
theorem newApp_discards_zap_error :
    (∀ e1 e2 : NewAppExt, e1.zapResult.1 = e2.zapResult.1 →
      e1.configResult = e2.configResult → e1.contractsResult = e2.contractsResult →
      newApp e1 = newApp e2) ∧
    (∀ ext : NewAppExt, ext.zapResult.1 = none → newApp ext = NewAppOutcome.panicked) := by
  constructor
  · intro e1 e2 h1 h2 h3
    unfold newApp
    rw [h1, h2, h3]
  · intro ext h
    unfold newApp
    rw [h]

/-- Witness for C9: a failing zap constructor with a non-nil error makes
NewApp panic, the error never being consulted. -/
theorem newApp_discards_zap_error_witness :
    newApp extZapFails = NewAppOutcome.panicked :=
  newApp_discards_zap_error.2 extZapFails rfl

/-- C10: with the console destination explicitly disabled and no Postgres
section, Run proceeds with an empty destination list, every chain goroutine
and the service goroutine still start, dispatching any event delivers it to
zero destinations, and when the service goroutine returns nil Run returns
normally with no fatal exit step in its trace. -/
theorem empty_destinations_run (cfg : Config) (ext : RunExt)
    (hcon : cfg.outputs.console = some { disabled := true })
    (hpg : cfg.outputs.postgres = none) :
    (run cfg ext).outputs = [] ∧
    (∀ e : Ev, dispatch (run cfg ext).outputs e = []) ∧
    Event.serviceTaskStarted ∈ (run cfg ext).trace ∧
    (∀ i, i < cfg.chains.length → Event.chainTaskStarted i ∈ (run cfg ext).trace) ∧
    (ext.serviceResult = none →
      (run cfg ext).outcome = Outcome.returned ∧
      (∀ k, Event.fatalExit k ∉ (run cfg ext).trace)) := by
  have hce : consoleEnabled cfg = false := by
    unfold consoleEnabled
    rw [hcon]
    rfl
  have houts : (run cfg ext).outputs = [] := by
    rw [run_outputs_eq, hce]
    have : dbRegistered cfg ext = false := by
      unfold dbRegistered
      rw [hpg]
      rfl
    rw [this]
    rfl
  refine ⟨houts, ?_, ?_, ?_, ?_⟩
  · intro e
    rw [houts]
    rfl
  · rw [run_no_db_trace cfg ext hpg]
    simp
  · intro i hi
    rw [run_no_db_trace cfg ext hpg]
    have : Event.chainTaskStarted i ∈ (List.range cfg.chains.length).map Event.chainTaskStarted :=
      List.mem_map.mpr ⟨i, List.mem_range.mpr hi, rfl⟩
    simp [this]
  · intro hs
    constructor
    · rw [run_postgres_none cfg ext hpg, startAndWait_service_none cfg ext _ _ _ hs]
    · intro k
      rw [run_no_db_trace cfg ext hpg]
      simp [noDbTail, hs, hce, List.mem_map]

/-- Witness for C10 at the concrete silenced configuration. -/
theorem empty_destinations_run_witness :
    (run cfgSilent extOk).outputs = [] :=
  (empty_destinations_run cfgSilent extOk rfl rfl).1

end SCMonitor
